import Mathlib

/-!
# Verification of the picoquic CUBIC congestion controller (src/picoquic/cubic.c)

This file gives a shallow embedding of `cubic.c` and proves/refutes the
specification claims about it.

## Modelling conventions

* C `uint64_t` values are modelled as `ℕ`, with an explicit `% 2 ^ 64`
  (`u64`, `u64sub`) at every arithmetic step of the source where the C
  computation can wrap.  `int64_t` intermediate values are modelled as `ℤ`
  via `toI64` (two's-complement reinterpretation of the 64-bit pattern).
  The C library function `abs` declared in `<stdlib.h>` takes an `int`, so
  its `int64_t` argument is first truncated to 32 bits (`toI32`).
* C `float` arithmetic is modelled as exact arithmetic over `ℚ`.  The float
  literals `0.7f` and `0.85f` are modelled by the rationals `7/10` and
  `17/20` (the binary32 values differ from these by a relative error below
  `2 ^ (-23)`, which does not affect any result stated in this file; every
  concrete computation below keeps a margin many orders of magnitude wider
  than one unit in the last place of a binary32).  An IEEE division by zero
  produces no finite value (`±inf`/`NaN`, and casting such a value to
  `uint64_t` is undefined behaviour), so float division is modelled by
  `fdiv : ℚ → ℚ → Option ℚ` returning `none` for a zero divisor, and the
  handlers that consume such values return `Option` results, `none`
  standing for a poisoned (non-finite / undefined) outcome.
* The cast of a nonnegative float to `uint64_t` truncates toward zero and
  is modelled by `f2u64 q = (Int.toNat ⌊q⌋)`.
* The double-precision `cbrt` is modelled by the exact floor cube root
  `icbrt`.
* `picoquic_update_pacing_data` is transport code outside `src/`; per the
  spec ("the transport immediately recomputes pacing from the new cwnd",
  §2) it only derives pacing-rate fields from `cwin` and is therefore
  modelled as the identity on the state modelled here.
* `PICOQUIC_CWIN_INITIAL` is a transport-provided constant declared outside
  `src/` (spec §6 "Constants"); it is modelled as an explicit parameter of
  `picoquic_cubic_init`.
* Allocation success in `picoquic_cubic_init` is modelled by a boolean
  parameter; the controller slot `congestion_alg_state` is an
  `Option picoquic_cubic_state_t` (`none` = null pointer).
-/

namespace PicoquicCubic

/-- `2 ^ 64`, the modulus of C `uint64_t` arithmetic. -/
def U64 : ℕ := 2 ^ 64

/-- Reduction of a natural number to its `uint64_t` value. -/
def u64 (x : ℕ) : ℕ := x % U64

/-- C `uint64_t` subtraction `a - b` (wraps modulo `2 ^ 64`). -/
def u64sub (a b : ℕ) : ℕ := (u64 a + U64 - u64 b) % U64

/-- Reinterpretation of a `uint64_t` bit pattern as `int64_t`
(conversion of an out-of-range value, implementation-defined in C,
modelled as the customary two's-complement wrap). -/
def toI64 (x : ℕ) : ℤ := if u64 x < 2 ^ 63 then (u64 x : ℤ) else (u64 x : ℤ) - (U64 : ℤ)

/-- Conversion of an integer to C `int` (32-bit, two's-complement wrap). -/
def toI32 (x : ℤ) : ℤ :=
  if x % 2 ^ 32 < 2 ^ 31 then x % 2 ^ 32 else x % 2 ^ 32 - 2 ^ 32

/-- Reinterpretation of an `int64_t` value as `uint64_t` (used by the C
usual arithmetic conversions when an `int64_t` is compared with a
`uint64_t`). -/
def u64ofI64 (x : ℤ) : ℕ := (x % (U64 : ℤ)).toNat

/-- `#define DEFAULT_TCP_MSS 1460` -/
def DEFAULT_TCP_MSS : ℕ := 1460

/-- `#define MICROSEC_PER_SEC 1000000` -/
def MICROSEC_PER_SEC : ℕ := 1000000

/-- `static const int kCubeScale = 40` -/
def kCubeScale : ℕ := 40

/-- `static const int kCubeCongestionWindowScale = 410` -/
def kCubeCongestionWindowScale : ℕ := 410

/-- `kCubeFactor = (UINT64_C(1) << kCubeScale) / kCubeCongestionWindowScale / DEFAULT_TCP_MSS`
(computed in `picoquic_cubic_init`; integer division). -/
def kCubeFactor : ℕ :=
  ((Nat.shiftLeft 1 kCubeScale) / kCubeCongestionWindowScale) / DEFAULT_TCP_MSS

/-- `const float kBeta = 0.7f` (exact-rational float model, see header). -/
def kBeta : ℚ := 7 / 10

/-- `const float kBetaLastMax = 0.85f` (exact-rational float model). -/
def kBetaLastMax : ℚ := 17 / 20

/-- Float division; `none` models the IEEE non-finite result of a division
by zero (and its undefined conversion back to an integer). -/
def fdiv (x y : ℚ) : Option ℚ := if y = 0 then none else some (x / y)

/-- Cast of a (nonnegative) float value to `uint64_t`: truncation toward 0. -/
def f2u64 (q : ℚ) : ℕ := Int.toNat ⌊q⌋

/-- Floor cube root; models `(uint64_t)cbrt(x)`. -/
def icbrt (x : ℕ) : ℕ := Nat.findGreatest (fun k => k ^ 3 ≤ x) x

/-- `static float Beta(picoquic_path_t* path_x)`:
`((*(path_x->total_stream_count)) - 1 + kBeta) / (*(path_x->total_stream_count))`.
`total_stream_count` is a `u64` counter (spec §6), so `n - 1` wraps for
`n = 0` and the division is by zero for `n = 0`. -/
def Beta (n : ℕ) : Option ℚ := fdiv ((u64sub n 1 : ℚ) + kBeta) (u64 n)

/-- `static float BetaLastMax(picoquic_path_t* path_x)`:
`((*(path_x->total_stream_count)) - 1 + kBetaLastMax) / (*(path_x->total_stream_count))`. -/
def BetaLastMax (n : ℕ) : Option ℚ := fdiv ((u64sub n 1 : ℚ) + kBetaLastMax) (u64 n)

/-- `static float Alpha(picoquic_path_t* path_x)`:
`3 * n * n * (1-beta) / (1-beta)` where `beta = Beta(path_x)`.
The product `3 * n * n` is computed in `uint64_t` before the conversion to
float.  Note the source divides by `(1-beta)`, not `(1+beta)`. -/
def Alpha (n : ℕ) : Option ℚ :=
  (Beta n).bind fun beta => fdiv ((u64 (3 * n * n) : ℚ) * (1 - beta)) (1 - beta)

/-- Modelled from the spec (§4.1): `Alpha(n) = 3·n·n·(1 − Beta(n)) / (1 + Beta(n))`,
the TCP-friendly additive-increase coefficient from the CUBIC paper.  This
definition follows the spec's words and is compared against `Alpha` above,
which is translated from the source. -/
def AlphaSpec (n : ℕ) : Option ℚ :=
  (Beta n).bind fun beta => fdiv ((u64 (3 * n * n) : ℚ) * (1 - beta)) (1 + beta)

/-- `picoquic_cubic_alg_state_t`. -/
inductive picoquic_cubic_alg_state_t
  | slow_start
  | congestion_avoidance
deriving DecidableEq, Repr

/-- `st_picoquic_cubic_state_t`: the controller state. -/
structure picoquic_cubic_state_t where
  alg_state : picoquic_cubic_alg_state_t
  epoch_start_time : ℕ
  estimated_nr_cwnd : ℕ
  last_max_cwnd : ℕ
  time_of_origin : ℕ
  origin_cwnd : ℕ
  last_target_cwnd : ℕ
deriving DecidableEq, Repr

/-- The slice of `picoquic_path_t` the controller reads and writes
(spec §3 "Path view").  `congestion_alg_state = none` models a null
pointer in the opaque slot. -/
structure picoquic_path_t where
  congestion_alg_state : Option picoquic_cubic_state_t
  cwin : ℕ
  bytes_in_transit : ℕ
  rtt_min : ℕ
  total_stream_count : ℕ
deriving DecidableEq, Repr

/-- `picoquic_congestion_notification_t` (the notification kinds the switch
statements distinguish; unknown kinds hit `default:` and are no-ops). -/
inductive picoquic_congestion_notification_t
  | acknowledgement
  | repeat
  | timeout
  | spurious_repeat
  | rtt_measurement
deriving DecidableEq, Repr

/-- `void picoquic_cubic_init(picoquic_path_t* path_x)`.
`alloc_ok` models the success of `malloc`; `cwin_initial` models the
transport constant `PICOQUIC_CWIN_INITIAL` (declared outside `src/`).
On allocation failure the slot is left null and `cwin` untouched. -/
def picoquic_cubic_init (alloc_ok : Bool) (cwin_initial : ℕ)
    (path_x : picoquic_path_t) : picoquic_path_t :=
  if alloc_ok then
    { path_x with
      congestion_alg_state := some
        { alg_state := .slow_start
          epoch_start_time := 0
          estimated_nr_cwnd := 0
          last_max_cwnd := 0
          time_of_origin := 0
          origin_cwnd := 0
          last_target_cwnd := 0 }
      cwin := u64 cwin_initial }
  else { path_x with congestion_alg_state := none }

/-- `static void picoquic_cubic_process_loss(picoquic_path_t* path_x)`.
Fast convergence on `last_max_cwnd`, epoch reset, then the multiplicative
decrease `path_x->cwin = (path_x->cwin * Beta(path_x))` — with no lower
clamp.  A `none` result models float poisoning (division by zero in the
scaling helpers, only possible for `total_stream_count = 0`). -/
def picoquic_cubic_process_loss (path_x : picoquic_path_t) : Option picoquic_path_t :=
  match path_x.congestion_alg_state with
  | none => some path_x
  | some cu_state =>
    (if u64 (path_x.cwin + DEFAULT_TCP_MSS) < cu_state.last_max_cwnd then
        (BetaLastMax path_x.total_stream_count).map
          (fun blm => f2u64 (blm * (path_x.cwin : ℚ)))
      else some path_x.cwin).bind fun last_max =>
    (Beta path_x.total_stream_count).map fun beta =>
      { path_x with
        congestion_alg_state := some
          { cu_state with last_max_cwnd := last_max, epoch_start_time := 0 }
        cwin := f2u64 ((path_x.cwin : ℚ) * beta) }

/-- The epoch (re)start step of `picoquic_cubic_process_ack` (source lines
195–215): if no epoch is active, back-date `epoch_start_time` by one RTT,
re-anchor `estimated_nr_cwnd` to the current `cwin`, and compute the
origin point of the cubic curve. -/
def epoch_restart (cu : picoquic_cubic_state_t)
    (cwin current_time rtt_min : ℕ) : picoquic_cubic_state_t :=
  if cu.epoch_start_time = 0 then
    if cu.last_max_cwnd ≤ cwin then
      { cu with
        epoch_start_time := u64sub current_time rtt_min
        estimated_nr_cwnd := cwin
        time_of_origin := 0
        origin_cwnd := cwin }
    else
      { cu with
        epoch_start_time := u64sub current_time rtt_min
        estimated_nr_cwnd := cwin
        time_of_origin := icbrt (u64 (kCubeFactor * u64sub cu.last_max_cwnd cwin))
        origin_cwnd := cu.last_max_cwnd }
  else cu

/-- Source line 220:
`int64_t elapsed_time = (current_time - cu_state->epoch_start_time) << 10 / MICROSEC_PER_SEC;`
In C, `/` binds tighter than `<<`, so the shift amount is
`10 / MICROSEC_PER_SEC`; the subtraction is `uint64_t` (wrapping) and the
result is then converted to `int64_t`. -/
def elapsed_time (current_time epoch_start_time : ℕ) : ℤ :=
  toI64 (Nat.shiftLeft (u64sub current_time epoch_start_time) (10 / MICROSEC_PER_SEC))

/-- Modelled from the spec (§4.2.1 step 3): the intended elapsed time
`((now − epoch_start_time) << 10) / MICROSEC_PER_SEC` — shift by 10 first,
then divide.  Stated from the spec's words, for comparison with
`elapsed_time` above, which is translated from the source. -/
def elapsed_time_spec (current_time epoch_start_time : ℕ) : ℕ :=
  (Nat.shiftLeft (u64sub current_time epoch_start_time) 10) / MICROSEC_PER_SEC

/-- Source line 224:
`uint64_t offset = abs((int64_t)(cu_state->time_of_origin) - elapsed_time);`
`abs` from `<stdlib.h>` takes an `int`, so the `int64_t` argument is first
converted to `int` (32-bit). -/
def cubic_offset (time_of_origin : ℕ) (elapsed : ℤ) : ℕ :=
  (toI32 (toI64 time_of_origin - elapsed)).natAbs

/-- Source line 227:
`uint64_t delta_congestion_window = (kCubeCongestionWindowScale * offset * offset * offset * DEFAULT_TCP_MSS) >> kCubeScale;`
The product is `uint64_t` arithmetic and wraps modulo `2 ^ 64`. -/
def delta_congestion_window (offset : ℕ) : ℕ :=
  Nat.shiftRight
    (u64 (kCubeCongestionWindowScale * offset * offset * offset * DEFAULT_TCP_MSS))
    kCubeScale

/-- Source lines 230–232: the cubic target before the growth limit.
`addDelta` is `elapsed_time > time_of_origin` (a mixed `int64_t`/`uint64_t`
comparison, performed on `uint64_t` after the usual arithmetic
conversions).  Both the addition and the subtraction are `uint64_t`
operations: in particular `origin_cwnd - delta` wraps modulo `2 ^ 64`
when `delta > origin_cwnd` — it does not saturate at 0. -/
def target_congestion_window_raw (origin_cwnd delta : ℕ) (addDelta : Bool) : ℕ :=
  if addDelta then u64 (origin_cwnd + delta) else u64sub origin_cwnd delta

/-- `static void picoquic_cubic_process_ack(picoquic_path_t* path_x, uint64_t current_time, uint64_t nb_bytes_acknowledged)`.
`none` models a float-poisoned outcome: `total_stream_count = 0`
(division by zero inside `Alpha`) or `estimated_nr_cwnd = 0` at the
New-Reno update (float division by zero at source line 249). -/
def picoquic_cubic_process_ack (path_x : picoquic_path_t)
    (current_time nb_bytes_acknowledged : ℕ) : Option picoquic_path_t :=
  match path_x.congestion_alg_state with
  | none => some path_x
  | some cu_state =>
    if path_x.bytes_in_transit < path_x.cwin then
      -- application-limited: freeze the cubic clock and return
      some { path_x with
             congestion_alg_state := some { cu_state with epoch_start_time := 0 } }
    else
      let cu1 := epoch_restart cu_state path_x.cwin current_time path_x.rtt_min
      let elapsed := elapsed_time current_time cu1.epoch_start_time
      let offset := cubic_offset cu1.time_of_origin elapsed
      let delta := delta_congestion_window offset
      let addDelta := decide (u64 cu1.time_of_origin < u64ofI64 elapsed)
      let target0 := target_congestion_window_raw cu1.origin_cwnd delta addDelta
      -- growth limitation: the increase is limited by half the acked bytes
      let limit := u64 (path_x.cwin + nb_bytes_acknowledged / 2)
      let target1 := if limit < target0 then limit else target0
      let cu2 := { cu1 with last_target_cwnd := target1 }
      (Alpha path_x.total_stream_count).bind fun alpha =>
      if cu2.estimated_nr_cwnd = 0 then none
      else
        -- estimated_nr_cwnd += nb * (Alpha * DEFAULT_TCP_MSS) / estimated_nr_cwnd
        let est' := f2u64 ((cu2.estimated_nr_cwnd : ℚ) +
          (nb_bytes_acknowledged : ℚ) * (alpha * (DEFAULT_TCP_MSS : ℚ)) /
            (cu2.estimated_nr_cwnd : ℚ))
        let target2 := if target1 < est' then est' else target1
        some { path_x with
               congestion_alg_state := some { cu2 with estimated_nr_cwnd := est' }
               cwin := target2 }

/-- `void picoquic_cubic_notify(...)`: dispatch on `(alg_state, notification)`.
A null controller slot makes the whole call a no-op.  The trailing
`picoquic_update_pacing_data` call only recomputes pacing fields from
`cwin` (transport code outside `src/`, see header) and is the identity on
the state modelled here. -/
def picoquic_cubic_notify (path_x : picoquic_path_t)
    (notification : picoquic_congestion_notification_t)
    (rtt_measurement nb_bytes_acknowledged lost_packet_number current_time : ℕ) :
    Option picoquic_path_t :=
  match path_x.congestion_alg_state with
  | none => some path_x
  | some cu_state =>
    match cu_state.alg_state, notification with
    | .slow_start, .acknowledgement =>
        some { path_x with cwin := u64 (path_x.cwin + nb_bytes_acknowledged) }
    | .slow_start, .repeat | .slow_start, .timeout =>
        picoquic_cubic_process_loss
          { path_x with
            congestion_alg_state := some { cu_state with alg_state := .congestion_avoidance } }
    | .slow_start, .spurious_repeat | .slow_start, .rtt_measurement =>
        some path_x
    | .congestion_avoidance, .acknowledgement =>
        picoquic_cubic_process_ack path_x current_time nb_bytes_acknowledged
    | .congestion_avoidance, .repeat | .congestion_avoidance, .timeout =>
        picoquic_cubic_process_loss path_x
    | .congestion_avoidance, .spurious_repeat | .congestion_avoidance, .rtt_measurement =>
        some path_x

/-! ## Basic lemmas about the machine-arithmetic model -/

theorem u64_eq_of_lt {x : ℕ} (h : x < U64) : u64 x = x := Nat.mod_eq_of_lt h

theorem u64sub_eq_sub {a b : ℕ} (hb : b ≤ a) (ha : a < U64) : u64sub a b = a - b := by
  unfold u64sub u64
  rw [Nat.mod_eq_of_lt ha, Nat.mod_eq_of_lt (lt_of_le_of_lt hb ha)]
  have h1 : a + U64 - b = (a - b) + U64 := by omega
  rw [h1, Nat.add_mod_right, Nat.mod_eq_of_lt (by omega)]

theorem f2u64_le {q : ℚ} {m : ℕ} (h : q ≤ (m : ℚ)) : f2u64 q ≤ m := by
  unfold f2u64
  rw [Int.toNat_le]
  exact_mod_cast Int.floor_le_floor h |>.trans_eq (Int.floor_natCast m)

theorem le_f2u64 {q : ℚ} {m : ℕ} (h : (m : ℚ) ≤ q) : m ≤ f2u64 q := by
  unfold f2u64
  have h1 : (m : ℤ) ≤ ⌊q⌋ := by
    rw [Int.le_floor]
    exact_mod_cast h
  have h2 := Int.toNat_le_toNat h1
  simpa using h2

/-! ## The scaling primitives for a positive stream count -/

theorem Beta_of_pos {n : ℕ} (h1 : 1 ≤ n) (h2 : n < U64) :
    Beta n = some ((((n - 1 : ℕ) : ℚ) + kBeta) / (n : ℚ)) := by
  unfold Beta fdiv
  rw [u64sub_eq_sub h1 h2, u64_eq_of_lt h2]
  have hn : ((n : ℕ) : ℚ) ≠ 0 := Nat.cast_ne_zero.mpr (by omega)
  simp [hn]

theorem BetaLastMax_of_pos {n : ℕ} (h1 : 1 ≤ n) (h2 : n < U64) :
    BetaLastMax n = some ((((n - 1 : ℕ) : ℚ) + kBetaLastMax) / (n : ℚ)) := by
  unfold BetaLastMax fdiv
  rw [u64sub_eq_sub h1 h2, u64_eq_of_lt h2]
  have hn : ((n : ℕ) : ℚ) ≠ 0 := Nat.cast_ne_zero.mpr (by omega)
  simp [hn]

theorem beta_lt_one {n : ℕ} (h1 : 1 ≤ n) :
    (((n - 1 : ℕ) : ℚ) + kBeta) / (n : ℚ) < 1 := by
  have hn : (0 : ℚ) < (n : ℚ) := by exact_mod_cast h1
  rw [div_lt_one hn]
  have hcast : ((n - 1 : ℕ) : ℚ) = (n : ℚ) - 1 := by
    rw [Nat.cast_sub h1, Nat.cast_one]
  rw [hcast, kBeta]
  linarith

theorem beta_nonneg {n : ℕ} :
    (0 : ℚ) ≤ (((n - 1 : ℕ) : ℚ) + kBeta) / (n : ℚ) := by
  apply div_nonneg
  · have : (0 : ℚ) ≤ ((n - 1 : ℕ) : ℚ) := Nat.cast_nonneg _
    rw [kBeta]; linarith
  · exact Nat.cast_nonneg _

theorem Alpha_of_pos {n : ℕ} (h1 : 1 ≤ n) (h2 : n < U64) :
    Alpha n = some ((u64 (3 * n * n) : ℚ)) := by
  have hβ : (((n - 1 : ℕ) : ℚ) + kBeta) / (n : ℚ) < 1 := beta_lt_one h1
  unfold Alpha
  rw [Beta_of_pos h1 h2]
  unfold fdiv
  have hne : (1 : ℚ) - (((n - 1 : ℕ) : ℚ) + kBeta) / (n : ℚ) ≠ 0 := by linarith
  rw [Option.some_bind, if_neg hne, mul_div_assoc, div_self hne, mul_one]

/-! ## Characterization of the loss handler -/

theorem process_loss_spec {p : picoquic_path_t} {cu : picoquic_cubic_state_t}
    (hslot : p.congestion_alg_state = some cu)
    (h1 : 1 ≤ p.total_stream_count) (h2 : p.total_stream_count < U64) :
    ∃ lm, picoquic_cubic_process_loss p = some
      { p with
        congestion_alg_state := some { cu with last_max_cwnd := lm, epoch_start_time := 0 }
        cwin := f2u64 ((p.cwin : ℚ) *
          ((((p.total_stream_count - 1 : ℕ) : ℚ) + kBeta) / (p.total_stream_count : ℚ))) } := by
  simp only [picoquic_cubic_process_loss, hslot]
  by_cases hc : u64 (p.cwin + DEFAULT_TCP_MSS) < cu.last_max_cwnd
  · rw [if_pos hc, BetaLastMax_of_pos h1 h2, Beta_of_pos h1 h2]
    exact ⟨_, rfl⟩
  · rw [if_neg hc, Beta_of_pos h1 h2]
    exact ⟨p.cwin, rfl⟩

theorem process_loss_cwin_le {p : picoquic_path_t} {p' : picoquic_path_t}
    (h1 : 1 ≤ p.total_stream_count)
    (hcw : p'.cwin = f2u64 ((p.cwin : ℚ) *
      ((((p.total_stream_count - 1 : ℕ) : ℚ) + kBeta) / (p.total_stream_count : ℚ)))) :
    p'.cwin ≤ p.cwin := by
  rw [hcw]
  apply f2u64_le
  calc (p.cwin : ℚ) * ((((p.total_stream_count - 1 : ℕ) : ℚ) + kBeta) / (p.total_stream_count : ℚ))
      ≤ (p.cwin : ℚ) * 1 := by
        apply mul_le_mul_of_nonneg_left (le_of_lt (beta_lt_one h1)) (Nat.cast_nonneg _)
    _ = (p.cwin : ℚ) := mul_one _

/-! ## Characterization of the acknowledgement handler -/

theorem le_ite_max {a b : ℕ} : a ≤ if b < a then a else b := by
  by_cases h : b < a
  · simp [h]
  · simpa [h] using le_of_not_lt h

theorem epoch_restart_est (cu : picoquic_cubic_state_t) (c ct rtt : ℕ) :
    (epoch_restart cu c ct rtt).estimated_nr_cwnd =
      if cu.epoch_start_time = 0 then c else cu.estimated_nr_cwnd := by
  unfold epoch_restart
  by_cases h : cu.epoch_start_time = 0 <;> by_cases h2 : cu.last_max_cwnd ≤ c <;>
    simp [h, h2]

theorem process_ack_spec {p : picoquic_path_t} {cu : picoquic_cubic_state_t}
    (hslot : p.congestion_alg_state = some cu)
    (hbit : ¬ p.bytes_in_transit < p.cwin)
    (h1 : 1 ≤ p.total_stream_count) (h2 : p.total_stream_count < U64)
    (ct nb : ℕ)
    (hest : (epoch_restart cu p.cwin ct p.rtt_min).estimated_nr_cwnd ≠ 0) :
    ∃ p' cu',
      picoquic_cubic_process_ack p ct nb = some p' ∧
      p'.congestion_alg_state = some cu' ∧
      (epoch_restart cu p.cwin ct p.rtt_min).estimated_nr_cwnd ≤ cu'.estimated_nr_cwnd ∧
      cu'.estimated_nr_cwnd ≤ p'.cwin := by
  simp only [picoquic_cubic_process_ack, hslot, if_neg hbit, Alpha_of_pos h1 h2,
    Option.some_bind]
  set cu1 := epoch_restart cu p.cwin ct p.rtt_min with hcu1
  simp only [if_neg hest]
  refine ⟨_, _, rfl, rfl, ?_, ?_⟩
  · apply le_f2u64
    have hx : (0 : ℚ) ≤ (nb : ℚ) * ((u64 (3 * p.total_stream_count * p.total_stream_count) : ℚ) *
        (DEFAULT_TCP_MSS : ℚ)) / (cu1.estimated_nr_cwnd : ℚ) := by positivity
    linarith
  · exact le_ite_max

/-! ## The claims -/

/-- C1, counterexample: `cwnd ≥ MIN_CWND` fails.  With the transport's
initial window `MIN_CWND = PICOQUIC_CWIN_INITIAL = 15360` and a single
stream, a successful `init` followed by one `Timeout` notification leaves
`cwin = ⌊0.7 · 15360⌋ = 10752 < 15360`: `picoquic_cubic_process_loss`
performs `cwin := cwin * Beta(n)` with no `max(MIN_CWND, ·)` clamp. -/
theorem C1_counterexample :
    picoquic_cubic_notify (picoquic_cubic_init true 15360 ⟨none, 0, 0, 0, 1⟩)
      .timeout 0 0 0 0 =
      some ⟨some ⟨.congestion_avoidance, 0, 0, 15360, 0, 0, 0⟩, 10752, 0, 0, 1⟩ ∧
    (10752 : ℕ) < 15360 := by
  norm_num [picoquic_cubic_notify, picoquic_cubic_init, picoquic_cubic_process_loss,
    u64, u64sub, U64, f2u64, Beta, BetaLastMax, fdiv, kBeta, kBetaLastMax,
    DEFAULT_TCP_MSS]
  rfl

/-- C1, amended: on a `Repeat` or `Timeout` event in congestion avoidance
the multiplicative decrease sets `cwnd := ⌊Beta(n) · cwnd⌋` with **no**
`MIN_CWND` floor; the result never exceeds the previous `cwnd`, but
nothing keeps it at or above `MIN_CWND` (see `C1_counterexample`). -/
theorem C1_amended (p : picoquic_path_t) (cu : picoquic_cubic_state_t)
    (notification : picoquic_congestion_notification_t) (r nb l t : ℕ)
    (hslot : p.congestion_alg_state = some cu)
    (halg : cu.alg_state = .congestion_avoidance)
    (hnotif : notification = .repeat ∨ notification = .timeout)
    (h1 : 1 ≤ p.total_stream_count) (h2 : p.total_stream_count < U64) :
    ∃ p', picoquic_cubic_notify p notification r nb l t = some p' ∧
      p'.cwin = f2u64 ((p.cwin : ℚ) *
        ((((p.total_stream_count - 1 : ℕ) : ℚ) + kBeta) / (p.total_stream_count : ℚ))) ∧
      p'.cwin ≤ p.cwin := by
  obtain ⟨lm, hloss⟩ := process_loss_spec hslot h1 h2
  have hnotify : picoquic_cubic_notify p notification r nb l t =
      picoquic_cubic_process_loss p := by
    rcases hnotif with h | h <;> subst h <;>
      simp [picoquic_cubic_notify, hslot, halg]
  rw [hnotify, hloss]
  exact ⟨_, rfl, rfl, process_loss_cwin_le h1 rfl⟩

/-- C1, witness for the amended theorem, at a concrete congestion-avoidance
state with one stream. -/
theorem C1_amended_witness :
    ∃ p', picoquic_cubic_notify ⟨some ⟨.congestion_avoidance, 5, 100, 0, 0, 500, 0⟩, 1000, 0, 0, 1⟩
        .timeout 0 0 0 0 = some p' ∧
      p'.cwin = f2u64 (((1000 : ℕ) : ℚ) * ((((1 - 1 : ℕ) : ℚ) + kBeta) / ((1 : ℕ) : ℚ))) ∧
      p'.cwin ≤ 1000 :=
  C1_amended ⟨some ⟨.congestion_avoidance, 5, 100, 0, 0, 500, 0⟩, 1000, 0, 0, 1⟩
    ⟨.congestion_avoidance, 5, 100, 0, 0, 500, 0⟩ .timeout 0 0 0 0
    rfl rfl (Or.inr rfl) (by norm_num) (by norm_num [U64])

/-- C2: the claim says the coefficient used by the New-Reno update is
`Alpha(n) = 3·n·n·(1 − Beta(n)) / (1 + Beta(n))`.  The source divides by
`(1 - beta)` instead of `(1 + beta)`, so `Alpha` always returns `3·n·n`:
at `n = 1` the source value is `3` while the spec formula (`AlphaSpec`,
with `Beta(1) = 7/10`) gives `3 · (3/10) / (17/10) = 9/17`.  The code
contradicts its own doc comment (which cites §3.3 of the CUBIC paper) and
the spec flags this line as a defect (spec §9.1), so this is a code bug. -/
theorem C2_alpha_formula :
    Alpha 1 ≠ AlphaSpec 1 ∧ Alpha 1 = some 3 ∧ AlphaSpec 1 = some (9 / 17) := by
  norm_num [Alpha, AlphaSpec, Beta, fdiv, u64sub, u64, U64, kBeta]

/-- C3: the claim says the elapsed time fed to the cubic target is
`((now − epoch_start_time) << 10) / MICROSEC_PER_SEC`.  In the source,
`/` binds tighter than `<<`, so line 220 computes
`(now − epoch_start_time) << (10 / MICROSEC_PER_SEC) = (now − epoch_start_time) << 0`.
At `now − epoch_start_time = 1 000 000 µs` the source (`elapsed_time`)
yields `1 000 000` while the spec formula (`elapsed_time_spec`) yields
`1024`.  The code contradicts its own comment (lines 216–218, "2^10
fractions of a second") and the spec flags the line as a defect (§9.2):
a code bug. -/
theorem C3_elapsed_time_precedence :
    elapsed_time 1000000 0 = 1000000 ∧ elapsed_time_spec 1000000 0 = 1024 ∧
    elapsed_time 1000000 0 ≠ ((elapsed_time_spec 1000000 0 : ℕ) : ℤ) := by
  decide

/-- C4, counterexample: the claim says that with `elapsed ≤ time_of_origin`
and `Δ > origin_cwnd` the computed target is 0 (saturating subtraction).
Take `time_of_origin = 10000`, `elapsed = 0` (so the subtract branch is
chosen: the `addDelta` comparison is false), `origin_cwnd = 1000`:
`Δ = 544423 > 1000`, and the `uint64_t` subtraction wraps to
`2^64 − 543423 ≠ 0` instead of saturating. -/
theorem C4_counterexample :
    cubic_offset 10000 (elapsed_time 5 5) = 10000 ∧
    decide (u64 10000 < u64ofI64 (elapsed_time 5 5)) = false ∧
    delta_congestion_window 10000 = 544423 ∧
    (1000 : ℕ) < 544423 ∧
    target_congestion_window_raw 1000 544423 false = U64 - 543423 ∧
    U64 - 543423 ≠ 0 := by
  decide

/-- C4, amended: in the subtract branch (`elapsed ≤ time_of_origin`), when
`Δ` exceeds `origin_cwnd` the target before the growth limit is the
wrapped value `(origin_cwnd − Δ) mod 2^64 = 2^64 − (Δ − origin_cwnd)`,
which is never 0 — the subtraction wraps modulo `2^64`, it does not
saturate at 0. -/
theorem C4_amended (origin delta : ℕ) (h1 : origin < delta) (h2 : delta < U64) :
    target_congestion_window_raw origin delta false = U64 - (delta - origin) ∧
    target_congestion_window_raw origin delta false ≠ 0 := by
  unfold target_congestion_window_raw
  rw [if_neg]
  · unfold u64sub u64 U64 at *
    omega
  · simp

/-- C4, witness for the amended theorem at `origin_cwnd = 5`, `Δ = 7`. -/
theorem C4_amended_witness :
    target_congestion_window_raw 5 7 false = U64 - 2 ∧
    target_congestion_window_raw 5 7 false ≠ 0 :=
  C4_amended 5 7 (by norm_num) (by norm_num [U64])

/-- C5, counterexample: the claim says `Beta`, `BetaLastMax` and `Alpha`
treat `total_stream_count = 0` as 1 and never divide by zero.  In the
source there is no `max(1, ·)` clamp: at `n = 0` all three primitives
divide by zero (modelled as `none`, an IEEE non-finite value), which is
not the `n = 1` value of any of them. -/
theorem C5_counterexample :
    Beta 0 ≠ Beta 1 ∧ BetaLastMax 0 ≠ BetaLastMax 1 ∧ Alpha 0 ≠ Alpha 1 := by
  norm_num [Alpha, Beta, BetaLastMax, fdiv, u64sub, u64, U64, kBeta, kBetaLastMax]
  simp

/-- C5, amended: at `total_stream_count = 0` every scaling primitive
divides by zero and produces no finite value (`none`), whereas at
`n = 1` they produce `0.7`, `0.85` and `3` respectively; the clamp of a
zero stream count to 1 is absent from the code. -/
theorem C5_amended :
    Beta 0 = none ∧ BetaLastMax 0 = none ∧ Alpha 0 = none ∧
    Beta 1 = some kBeta ∧ BetaLastMax 1 = some kBetaLastMax ∧ Alpha 1 = some 3 := by
  norm_num [Alpha, Beta, BetaLastMax, fdiv, u64sub, u64, U64, kBeta, kBetaLastMax]

/-- C6, counterexample: an acknowledgement in congestion avoidance (with
no loss anywhere near) can *decrease* `cwin`.  In the state below the
active epoch has `origin_cwnd = 500` and `estimated_nr_cwnd = 100`, both
far below `cwin = 1 000 000`; the cubic target is 500 and the New-Reno
floor only reaches 187, so the committed `cwin` drops from 1 000 000 to
500. -/
theorem C6_counterexample :
    picoquic_cubic_notify
        ⟨some ⟨.congestion_avoidance, 5, 100, 0, 0, 500, 0⟩, 1000000, 1000000, 0, 1⟩
        .acknowledgement 0 2 0 5 =
      some ⟨some ⟨.congestion_avoidance, 5, 187, 0, 0, 500, 500⟩, 500, 1000000, 0, 1⟩ ∧
    (500 : ℕ) < 1000000 := by
  norm_num [picoquic_cubic_notify, picoquic_cubic_process_ack, epoch_restart,
    elapsed_time, cubic_offset, delta_congestion_window, target_congestion_window_raw,
    u64, u64sub, U64, toI64, toI32, u64ofI64, f2u64, Alpha, Beta, fdiv, kBeta,
    DEFAULT_TCP_MSS, MICROSEC_PER_SEC]
  rfl

/-- C6, amended: an acknowledgement in congestion avoidance cannot
decrease `cwin` *provided* the cubic epoch is being (re)started at that
call or the stored New-Reno estimate is at least `cwin` (both hold
whenever the epoch was (re)anchored at the current window, e.g. on the
first ACK of every epoch); without such a side condition the growth is
not monotone (see `C6_counterexample`). -/
theorem C6_amended (p : picoquic_path_t) (cu : picoquic_cubic_state_t) (r nb l ct : ℕ)
    (hslot : p.congestion_alg_state = some cu)
    (halg : cu.alg_state = .congestion_avoidance)
    (h1 : 1 ≤ p.total_stream_count) (h2 : p.total_stream_count < U64)
    (hcw : 1 ≤ p.cwin)
    (hside : cu.epoch_start_time = 0 ∨ p.cwin ≤ cu.estimated_nr_cwnd) :
    ∃ p', picoquic_cubic_notify p .acknowledgement r nb l ct = some p' ∧
      p.cwin ≤ p'.cwin := by
  have hnotify : picoquic_cubic_notify p .acknowledgement r nb l ct =
      picoquic_cubic_process_ack p ct nb := by
    simp [picoquic_cubic_notify, hslot, halg]
  rw [hnotify]
  by_cases hbit : p.bytes_in_transit < p.cwin
  · refine ⟨{ p with congestion_alg_state := some { cu with epoch_start_time := 0 } },
      ?_, le_refl _⟩
    simp [picoquic_cubic_process_ack, hslot, hbit]
  · have hle : p.cwin ≤ (epoch_restart cu p.cwin ct p.rtt_min).estimated_nr_cwnd := by
      rw [epoch_restart_est]
      rcases hside with h | h
      · simp [h]
      · by_cases h0 : cu.epoch_start_time = 0 <;> simp [h0, h]
    have hest : (epoch_restart cu p.cwin ct p.rtt_min).estimated_nr_cwnd ≠ 0 := by
      omega
    obtain ⟨p', cu', hpa, _, hle2, hle3⟩ := process_ack_spec hslot hbit h1 h2 ct nb hest
    exact ⟨p', hpa, le_trans (le_trans hle hle2) hle3⟩

/-- C6, witness for the amended theorem: same state as the counterexample
but with `estimated_nr_cwnd = 2 000 000 ≥ cwin`. -/
theorem C6_amended_witness :
    ∃ p', picoquic_cubic_notify
        ⟨some ⟨.congestion_avoidance, 5, 2000000, 0, 0, 500, 0⟩, 1000000, 1000000, 0, 1⟩
        .acknowledgement 0 2 0 5 = some p' ∧
      (1000000 : ℕ) ≤ p'.cwin :=
  C6_amended ⟨some ⟨.congestion_avoidance, 5, 2000000, 0, 0, 500, 0⟩, 1000000, 1000000, 0, 1⟩
    ⟨.congestion_avoidance, 5, 2000000, 0, 0, 500, 0⟩ 0 2 0 5
    rfl rfl (by norm_num) (by norm_num [U64]) (by norm_num)
    (Or.inr (by norm_num))

/-- C7: after a `Repeat` or `Timeout` event in congestion avoidance,
`cwnd` does not increase and `epoch_start_time = 0`.  (Confirmed; the
hypotheses ask for a non-null controller slot and a positive `uint64`
stream count, without which the scaling math divides by zero.) -/
theorem C7_loss_monotone (p : picoquic_path_t) (cu : picoquic_cubic_state_t)
    (notification : picoquic_congestion_notification_t) (r nb l t : ℕ)
    (hslot : p.congestion_alg_state = some cu)
    (halg : cu.alg_state = .congestion_avoidance)
    (hnotif : notification = .repeat ∨ notification = .timeout)
    (h1 : 1 ≤ p.total_stream_count) (h2 : p.total_stream_count < U64) :
    ∃ p' cu', picoquic_cubic_notify p notification r nb l t = some p' ∧
      p'.congestion_alg_state = some cu' ∧
      p'.cwin ≤ p.cwin ∧ cu'.epoch_start_time = 0 := by
  obtain ⟨lm, hloss⟩ := process_loss_spec hslot h1 h2
  have hnotify : picoquic_cubic_notify p notification r nb l t =
      picoquic_cubic_process_loss p := by
    rcases hnotif with h | h <;> subst h <;>
      simp [picoquic_cubic_notify, hslot, halg]
  rw [hnotify, hloss]
  exact ⟨_, _, rfl, rfl, process_loss_cwin_le h1 rfl, rfl⟩

/-- C7, witness at a concrete congestion-avoidance state. -/
theorem C7_loss_monotone_witness :
    ∃ p' cu', picoquic_cubic_notify
        ⟨some ⟨.congestion_avoidance, 5, 100, 0, 0, 500, 0⟩, 1000000, 0, 0, 1⟩
        .repeat 0 0 0 0 = some p' ∧
      p'.congestion_alg_state = some cu' ∧
      p'.cwin ≤ 1000000 ∧ cu'.epoch_start_time = 0 :=
  C7_loss_monotone ⟨some ⟨.congestion_avoidance, 5, 100, 0, 0, 500, 0⟩, 1000000, 0, 0, 1⟩
    ⟨.congestion_avoidance, 5, 100, 0, 0, 500, 0⟩ .repeat 0 0 0 0
    rfl rfl (Or.inl rfl) (by norm_num) (by norm_num [U64])

/-- C8: an acknowledgement in congestion avoidance while
`bytes_in_transit < cwin` (application-limited) only sets
`epoch_start_time := 0` and returns: `cwin` and every other controller
field are unchanged (the right-hand side updates nothing else). -/
theorem C8_app_limited_freeze (p : picoquic_path_t) (cu : picoquic_cubic_state_t)
    (r nb l ct : ℕ)
    (hslot : p.congestion_alg_state = some cu)
    (halg : cu.alg_state = .congestion_avoidance)
    (hbit : p.bytes_in_transit < p.cwin) :
    picoquic_cubic_notify p .acknowledgement r nb l ct =
      some { p with congestion_alg_state := some { cu with epoch_start_time := 0 } } := by
  simp [picoquic_cubic_notify, picoquic_cubic_process_ack, hslot, halg, hbit]

/-- C8, witness at a concrete application-limited state (every controller
field other than `epoch_start_time`, and `cwin`, is visibly unchanged). -/
theorem C8_app_limited_freeze_witness :
    picoquic_cubic_notify ⟨some ⟨.congestion_avoidance, 77, 5, 6, 7, 8, 9⟩, 1000, 400, 3, 1⟩
        .acknowledgement 1 2 3 4 =
      some ⟨some ⟨.congestion_avoidance, 0, 5, 6, 7, 8, 9⟩, 1000, 400, 3, 1⟩ :=
  C8_app_limited_freeze ⟨some ⟨.congestion_avoidance, 77, 5, 6, 7, 8, 9⟩, 1000, 400, 3, 1⟩
    ⟨.congestion_avoidance, 77, 5, 6, 7, 8, 9⟩ 1 2 3 4 rfl rfl (by norm_num)

/-- C9: if allocation fails during `init`, the controller slot is left
null and `cwin` is untouched, and every subsequent `notify` call — for
every notification kind and argument values — returns the path unchanged:
no controller state is read or written and no event handler runs. -/
theorem C9_init_failure_noop (w : ℕ) (p : picoquic_path_t)
    (notification : picoquic_congestion_notification_t) (r nb l t : ℕ) :
    (picoquic_cubic_init false w p).congestion_alg_state = none ∧
    (picoquic_cubic_init false w p).cwin = p.cwin ∧
    picoquic_cubic_notify (picoquic_cubic_init false w p) notification r nb l t =
      some (picoquic_cubic_init false w p) := by
  refine ⟨rfl, rfl, ?_⟩
  simp [picoquic_cubic_init, picoquic_cubic_notify]

/-- C10, counterexample: the claim says that whenever the New-Reno update
divides by `estimated_nr_cwnd`, that divisor equals the path's `cwnd` as
captured at the most recent epoch (re)start.  Run two acknowledgements in
one epoch: the first (re)starts the epoch with `cwnd = 1000` (the divisor
of that call is 1000) and leaves `estimated_nr_cwnd = 5380`; at the
second acknowledgement the divisor — `estimated_nr_cwnd` after the
(here inactive) `epoch_restart` step — is `5380 ≠ 1000`. -/
theorem C10_counterexample :
    picoquic_cubic_notify ⟨some ⟨.congestion_avoidance, 0, 0, 0, 0, 0, 0⟩, 1000, 1000, 5, 1⟩
        .acknowledgement 0 1000 0 105 =
      some ⟨some ⟨.congestion_avoidance, 100, 5380, 0, 0, 1000, 1000⟩, 5380, 1000, 5, 1⟩ ∧
    (epoch_restart ⟨.congestion_avoidance, 0, 0, 0, 0, 0, 0⟩ 1000 105 5).estimated_nr_cwnd
      = 1000 ∧
    (epoch_restart ⟨.congestion_avoidance, 100, 5380, 0, 0, 1000, 1000⟩ 5380 205 5).estimated_nr_cwnd
      = 5380 ∧
    (5380 : ℕ) ≠ 1000 := by
  refine ⟨?_, by norm_num [epoch_restart], by norm_num [epoch_restart], by norm_num⟩
  norm_num [picoquic_cubic_notify, picoquic_cubic_process_ack, epoch_restart,
    elapsed_time, cubic_offset, delta_congestion_window, target_congestion_window_raw,
    u64, u64sub, U64, toI64, toI32, u64ofI64, f2u64, Alpha, Beta, fdiv, kBeta,
    DEFAULT_TCP_MSS, MICROSEC_PER_SEC, kCubeScale, kCubeCongestionWindowScale, kCubeFactor]
  decide

/-- C10, amended: the New-Reno divisor is `cwnd` itself when the epoch
(re)starts in the call, and otherwise the stored `estimated_nr_cwnd`,
which is only ever increased between restarts; so the divisor is at
least (not equal to) the `cwnd` captured at the most recent epoch
(re)start, and in particular it is nonzero — and the division defined —
whenever that `cwnd` was positive.  `c` tracks the anchored lower bound. -/
theorem C10_amended (p : picoquic_path_t) (cu : picoquic_cubic_state_t) (c ct nb : ℕ)
    (hslot : p.congestion_alg_state = some cu)
    (h1 : 1 ≤ p.total_stream_count) (h2 : p.total_stream_count < U64)
    (hc : 1 ≤ c)
    (hbit : p.cwin ≤ p.bytes_in_transit)
    (hanchor : cu.epoch_start_time = 0 → c ≤ p.cwin)
    (hinv : ¬ cu.epoch_start_time = 0 → c ≤ cu.estimated_nr_cwnd) :
    c ≤ (epoch_restart cu p.cwin ct p.rtt_min).estimated_nr_cwnd ∧
    (epoch_restart cu p.cwin ct p.rtt_min).estimated_nr_cwnd ≠ 0 ∧
    ∃ p' cu', picoquic_cubic_process_ack p ct nb = some p' ∧
      p'.congestion_alg_state = some cu' ∧ c ≤ cu'.estimated_nr_cwnd := by
  have hbit' : ¬ p.bytes_in_transit < p.cwin := not_lt.mpr hbit
  have hle : c ≤ (epoch_restart cu p.cwin ct p.rtt_min).estimated_nr_cwnd := by
    rw [epoch_restart_est]
    by_cases h0 : cu.epoch_start_time = 0
    · simpa [h0] using hanchor h0
    · simpa [h0] using hinv h0
  have hne : (epoch_restart cu p.cwin ct p.rtt_min).estimated_nr_cwnd ≠ 0 := by omega
  obtain ⟨p', cu', hpa, hs, hle2, _⟩ := process_ack_spec hslot hbit' h1 h2 ct nb hne
  exact ⟨hle, hne, p', cu', hpa, hs, le_trans hle hle2⟩

/-- C10, witness for the amended theorem: the second-acknowledgement state
of `C10_counterexample`, with anchored bound `c = 1000` (the `cwnd` at the
restart). -/
theorem C10_amended_witness :
    (1000 : ℕ) ≤ (epoch_restart ⟨.congestion_avoidance, 100, 5380, 0, 0, 1000, 1000⟩
        5380 205 5).estimated_nr_cwnd ∧
    (epoch_restart ⟨.congestion_avoidance, 100, 5380, 0, 0, 1000, 1000⟩
        5380 205 5).estimated_nr_cwnd ≠ 0 ∧
    ∃ p' cu', picoquic_cubic_process_ack
        ⟨some ⟨.congestion_avoidance, 100, 5380, 0, 0, 1000, 1000⟩, 5380, 5380, 5, 1⟩
        205 1000 = some p' ∧
      p'.congestion_alg_state = some cu' ∧ (1000 : ℕ) ≤ cu'.estimated_nr_cwnd :=
  C10_amended ⟨some ⟨.congestion_avoidance, 100, 5380, 0, 0, 1000, 1000⟩, 5380, 5380, 5, 1⟩
    ⟨.congestion_avoidance, 100, 5380, 0, 0, 1000, 1000⟩ 1000 205 1000
    rfl (by norm_num) (by norm_num [U64]) (by norm_num) (by norm_num)
    (by norm_num) (by norm_num)

end PicoquicCubic
